import Mathlib

/-!
Verification development for the spotterAi HOS (Hours-of-Service) compliance
engine: the trip stop planner and timeline materializer
(src/routing/services.py) and the status calculator
(src/compliance/services.py), together with the duty-status transition
operation (src/tracking/views.py, ChangeELDStatusView.post).

Timestamps and durations are modelled as rational numbers of hours (the
Python code stores datetimes and converts second differences to hours by
dividing by 3600; over exact rationals this is the identity on hours).
Coordinates are rational pairs. Fallible operations (index errors,
exhausted loop fuel) return Option.
-/

/-! ## Data model -/

/-- Duty-event type, mirroring ELDLog.EVENT_TYPE_CHOICES. -/
inductive EventType where
  | off_duty
  | sleeper_berth
  | on_duty
  | driving
deriving DecidableEq, Repr

/-- An ELD log record: `end_time = none` means the event is still open.
Mirrors the fields of tracking.models.ELDLog used by the algorithms. -/
structure ELDLog where
  event_type : EventType
  start_time : ℚ
  end_time : Option ℚ
  duration : ℚ
deriving DecidableEq, Repr

/-- A planner stop descriptor, mirroring the dicts appended to `stops` in
get_stops_along_route. -/
structure Stop where
  location : String
  reason : String
  duration : ℚ
  coordinates : ℚ × ℚ
  elapsed_time : ℚ
deriving DecidableEq, Repr

/-- A duty event produced by the timeline materializer in
create_route_for_trip (always created with a concrete end_time). -/
structure DutyEvent where
  event_type : EventType
  start_time : ℚ
  end_time : ℚ
  duration : ℚ
deriving DecidableEq, Repr

/-! ## Trip stop planner (src/routing/services.py, get_stops_along_route)

HOS constants from the source: MAX_DRIVING_HOURS_PER_SHIFT = 11,
MAX_DUTY_WINDOW = 14, MANDATORY_BREAK_DURATION = 0.5,
DRIVING_HOURS_BEFORE_BREAK = 8, REQUIRED_REST_DURATION = 10,
WEEKLY_LIMIT = 70, FUEL_STOP_INTERVAL = 1000, FUEL_STOP_DURATION = 0.5,
PICKUP_DURATION = 1, DROPOFF_DURATION = 1. -/

/-- The planner's mutable trip state variables. -/
structure PlanState where
  remaining_distance : ℚ
  elapsed_trip_time : ℚ
  driving_time_in_shift : ℚ
  driving_since_last_break : ℚ
  duty_window_elapsed : ℚ
  on_duty_hours_in_cycle : ℚ
  current_position_index : ℕ
deriving DecidableEq, Repr

/-- Maximum drivable distance this segment: the minimum of the remaining
distance, the four limit-derived distance budgets and the fuel interval. -/
def maxDriveDist (avg_speed : ℚ) (s : PlanState) : ℚ :=
  min s.remaining_distance
    (min ((11 - s.driving_time_in_shift) * avg_speed)
      (min ((14 - s.duty_window_elapsed) * avg_speed)
        (min ((8 - s.driving_since_last_break) * avg_speed)
          (min ((70 - s.on_duty_hours_in_cycle) * avg_speed) 1000))))

/-- Append one stop at the (bounds-clamped) current position and apply the
post-stop bookkeeping: advance elapsed time, add fueling time to the
duty-window and cycle accumulators, reset driving_since_last_break, and
reset the shift counters when `reset` is set (10-hour rest). -/
def emitStop (coords : List (ℚ × ℚ)) (s1 : PlanState) (reason : String)
    (dur : ℚ) (reset : Bool) : PlanState × List Stop :=
  let idx := min s1.current_position_index (coords.length - 1)
  let st : Stop :=
    { location := "Stop Location (" ++ reason ++ ")"
      reason := reason
      duration := dur
      coordinates := coords.getD idx (0, 0)
      elapsed_time := s1.elapsed_trip_time }
  let s2 := { s1 with elapsed_trip_time := s1.elapsed_trip_time + dur }
  let s3 :=
    if reason = "Fueling" then
      { s2 with duty_window_elapsed := s2.duty_window_elapsed + dur
                on_duty_hours_in_cycle := s2.on_duty_hours_in_cycle + dur }
    else s2
  let s4 := { s3 with driving_since_last_break := 0 }
  let s5 :=
    if reset then { s4 with driving_time_in_shift := 0, duty_window_elapsed := 0 }
    else s4
  (s5, [st])

/-- Advance the state by one driving segment of length `maxDriveDist`. -/
def driveAdvance (distance avg_speed : ℚ) (coords : List (ℚ × ℚ))
    (s : PlanState) : PlanState :=
  let seg := maxDriveDist avg_speed s
  let segTime := seg / avg_speed
  let segCount : ℕ :=
    if 0 < distance then (Int.floor (seg / distance * coords.length)).toNat else 0
  { remaining_distance := s.remaining_distance - seg
    elapsed_trip_time := s.elapsed_trip_time + segTime
    driving_time_in_shift := s.driving_time_in_shift + segTime
    driving_since_last_break := s.driving_since_last_break + segTime
    duty_window_elapsed := s.duty_window_elapsed + segTime
    on_duty_hours_in_cycle := s.on_duty_hours_in_cycle + segTime
    current_position_index :=
      min (s.current_position_index + segCount) (coords.length - 1) }

/-- Post-segment stop check, in priority order: 10-hour rest, 30-minute
break, fueling (lines 150-203 of the source). -/
def stopCheck (coords : List (ℚ × ℚ)) (seg : ℚ) (s1 : PlanState) :
    PlanState × List Stop :=
  if 11 ≤ s1.driving_time_in_shift ∨ 14 ≤ s1.duty_window_elapsed ∨
      70 ≤ s1.on_duty_hours_in_cycle then
    emitStop coords s1 "10-Hour Rest Period" 10 true
  else if 8 ≤ s1.driving_since_last_break then
    emitStop coords s1 "30-Minute Break" (1/2) false
  else if 1000 ≤ seg ∧ 0 < s1.remaining_distance then
    emitStop coords s1 "Fueling" (1/2) false
  else (s1, [])

/-- One iteration of the planner's main `while remaining_distance > 0` loop:
either the forced in-place stop branch (no drivable distance) or a driving
segment followed by the priority stop check. -/
def loopBody (distance avg_speed : ℚ) (coords : List (ℚ × ℚ))
    (s : PlanState) : PlanState × List Stop :=
  let maxd := maxDriveDist avg_speed s
  if maxd ≤ 0 then
    if 11 ≤ s.driving_time_in_shift ∨ 14 ≤ s.duty_window_elapsed ∨
        70 ≤ s.on_duty_hours_in_cycle then
      emitStop coords s "10-Hour Rest Period" 10 true
    else if 8 ≤ s.driving_since_last_break then
      emitStop coords s "30-Minute Break" (1/2) false
    else
      emitStop coords s "Forced Check/Break" (1/10) false
  else
    stopCheck coords maxd (driveAdvance distance avg_speed coords s)

/-- Fuel-indexed iteration of the planner loop.  Returns `none` when the
fuel runs out with distance still remaining, which witnesses that the
Python `while` loop has not terminated within `fuel` iterations. -/
def planLoop (distance avg_speed : ℚ) (coords : List (ℚ × ℚ)) :
    ℕ → PlanState → Option (List Stop × PlanState)
  | 0, s => if 0 < s.remaining_distance then none else some ([], s)
  | fuel + 1, s =>
    if 0 < s.remaining_distance then
      match planLoop distance avg_speed coords fuel
          (loopBody distance avg_speed coords s).1 with
      | none => none
      | some (rest, sf) => some ((loopBody distance avg_speed coords s).2 ++ rest, sf)
    else some ([], s)

/-- get_stops_along_route: pickup stop, main loop, dropoff stop.  An empty
coordinate list makes the Python `coordinates[0]` raise, modelled as
`none`; `none` also reports loop fuel exhaustion. -/
def getStopsAlongRoute (fuel : ℕ) (distance duration current_cycle_used : ℚ)
    (coordinates : List (ℚ × ℚ)) : Option (List Stop) :=
  match coordinates with
  | [] => none
  | c0 :: cs =>
    let avg_speed := if 0 < duration then distance / duration else 65
    let s0 : PlanState :=
      { remaining_distance := distance
        elapsed_trip_time := 1
        driving_time_in_shift := 0
        driving_since_last_break := 0
        duty_window_elapsed := 1
        on_duty_hours_in_cycle := current_cycle_used + 1
        current_position_index := 0 }
    match planLoop distance avg_speed (c0 :: cs) fuel s0 with
    | none => none
    | some (mids, sf) =>
      some ({ location := "Pickup Point", reason := "Pickup", duration := 1,
              coordinates := c0, elapsed_time := 0 } ::
            mids ++
            [{ location := "Dropoff Point", reason := "Delivery", duration := 1,
               coordinates := (c0 :: cs).getLast (List.cons_ne_nil c0 cs),
               elapsed_time := sf.elapsed_trip_time }])

example : getStopsAlongRoute 2 100 2 0 [((0:ℚ), (0:ℚ)), (1, 1)] =
    some [{ location := "Pickup Point", reason := "Pickup", duration := 1,
            coordinates := (0, 0), elapsed_time := 0 },
          { location := "Dropoff Point", reason := "Delivery", duration := 1,
            coordinates := (1, 1), elapsed_time := 3 }] := by
  norm_num [getStopsAlongRoute, planLoop, loopBody, stopCheck, emitStop,
    driveAdvance, maxDriveDist, min_def]

/-! ## Status calculator (src/compliance/services.py, get_hos_status)

Constants: MAX_DRIVING_HOURS_PER_SHIFT = 11, MAX_DUTY_WINDOW = 14,
DRIVING_HOURS_BEFORE_BREAK = 8, REQUIRED_REST_DURATION = 10,
MANDATORY_BREAK_DURATION = 0.5, WEEKLY_LIMIT = 70, CYCLE_DAYS = 8
(= 192 hours).  The driver's stored ELD logs are modelled as a list in
ascending start_time order (the storage order); the backward-ordered
Django querysets are modelled by filtering and reversing that list. -/

/-- Python round-half-to-even on an exact rational (round(x, 0)). -/
def bround (x : ℚ) : ℤ :=
  if x - ⌊x⌋ < 1/2 then ⌊x⌋
  else if 1/2 < x - ⌊x⌋ then ⌊x⌋ + 1
  else if ⌊x⌋ % 2 = 0 then ⌊x⌋ else ⌊x⌋ + 1

/-- Python round(x, 2), used on every hour field of the returned snapshot. -/
def round2 (x : ℚ) : ℚ := (bround (x * 100) : ℚ) / 100

/-- Off-duty event types accepted as rest or break time. -/
def isOffDutyType : EventType → Bool
  | .off_duty => true
  | .sleeper_berth => true
  | _ => false

/-- Event types that count toward on-duty totals. -/
def isOnDutyType : EventType → Bool
  | .driving => true
  | .on_duty => true
  | _ => false

/-- `log.end_time if log.end_time and log.end_time < check_time else
check_time`: the effective end of an event for a scan ending at `now`. -/
def effEndAt (now : ℚ) (l : ELDLog) : ℚ :=
  match l.end_time with
  | some e => if e < now then e else now
  | none => now

/-- One log's contribution to the 70-hour/8-day cycle total.  The queryset
filter keeps only logs with `start_time >= now - 192` and
`start_time < now`; inside, the event is clipped to the window and to
`now` and counted only when the clipped duration is positive. -/
def cycleContrib (now : ℚ) (l : ELDLog) : ℚ :=
  if now - 192 ≤ l.start_time ∧ l.start_time < now then
    if isOnDutyType l.event_type then
      let effEnd := effEndAt now l
      let effStart := max l.start_time (now - 192)
      if effStart < effEnd then effEnd - effStart else 0
    else 0
  else 0

/-- cycle_total_hours: total on-duty time counted for the cycle window. -/
def cycleTotalHours (logs : List ELDLog) (now : ℚ) : ℚ :=
  (logs.map (cycleContrib now)).sum

/-- The driver's logs with `start_time < now`, newest first (the
`order_by('-start_time')` queryset used by the backward scans). -/
def descLogs (logs : List ELDLog) (now : ℚ) : List ELDLog :=
  (logs.filter (fun l => decide (l.start_time < now))).reverse

/-- Logs with `shiftStart <= start_time < now`, newest first. -/
def descLogsBetween (logs : List ELDLog) (shiftStart now : ℚ) : List ELDLog :=
  (logs.filter (fun l =>
    decide (shiftStart ≤ l.start_time) && decide (l.start_time < now))).reverse

/-- Backward scan for the shift start: accumulate consecutive off-duty
time (resetting on any other event type); return the end of the first
qualifying 10-hour rest, or `cycleStart` when a log at or before the
cycle boundary is reached, or `none` when the logs run out. -/
def shiftScan (cycleStart : ℚ) : List ELDLog → ℚ → ℚ → Option ℚ
  | [], _, _ => none
  | log :: rest, prev, acc =>
    let logEnd :=
      match log.end_time with
      | some e => if e < prev then e else prev
      | none => prev
    if isOffDutyType log.event_type ∧ 10 ≤ acc + (logEnd - log.start_time) then
      some logEnd
    else
      let acc2 := if isOffDutyType log.event_type then
        acc + (logEnd - log.start_time) else 0
      if log.start_time ≤ cycleStart then some cycleStart
      else shiftScan cycleStart rest log.start_time acc2

/-- One log's contribution to driving time in the current shift: the
shift queryset keeps `shiftStart <= start_time < now`; the loop adds the
time up to the effective end for driving events with positive duration. -/
def shiftContrib (shiftStart now : ℚ) (l : ELDLog) : ℚ :=
  if shiftStart ≤ l.start_time ∧ l.start_time < now then
    let d := effEndAt now l - l.start_time
    if l.event_type = EventType.driving ∧ 0 < d then d else 0
  else 0

/-- driving_in_shift_hours for a discovered shift start. -/
def drivingInShift (logs : List ELDLog) (shiftStart now : ℚ) : ℚ :=
  (logs.map (shiftContrib shiftStart now)).sum

/-- The shift-start search result for a driver's logs at `now`. -/
def shiftStartResult (logs : List ELDLog) (now : ℚ) : Option ℚ :=
  shiftScan (now - 192) (descLogs logs now) now 0

/-- The rounded remaining_driving_hours field of the returned snapshot:
`max(0, 11 - driving_in_shift_hours)`, with driving_in_shift 0 when no
shift start was identified (fresh-shift fallback). -/
def remainingDrivingHours (logs : List ELDLog) (now : ℚ) : ℚ :=
  round2 (max 0 (11 -
    match shiftStartResult logs now with
    | none => 0
    | some s => drivingInShift logs s now))

/-- Backward scan for the end of the last qualifying 30-minute break
within the current shift (same accumulation as the shift scan, threshold
0.5 h, no cycle-boundary fallback). -/
def breakScan : List ELDLog → ℚ → ℚ → Option ℚ
  | [], _, _ => none
  | log :: rest, prev, acc =>
    let logEnd :=
      match log.end_time with
      | some e => if e < prev then e else prev
      | none => prev
    if isOffDutyType log.event_type ∧ 1/2 ≤ acc + (logEnd - log.start_time) then
      some logEnd
    else
      breakScan rest log.start_time
        (if isOffDutyType log.event_type then acc + (logEnd - log.start_time) else 0)

/-- Driving time accumulated since the last qualifying break ended at
`t`: the queryset keeps driving logs with `t <= start_time < now` and the
loop adds the time up to the effective end (no positivity guard). -/
def drivingSinceBreakSum (logs : List ELDLog) (t now : ℚ) : ℚ :=
  (logs.map (fun l =>
    if l.event_type = EventType.driving ∧ t ≤ l.start_time ∧ l.start_time < now
    then effEndAt now l - l.start_time else 0)).sum

/-- Midnight of the day containing `now` (timezone-naive rational hours). -/
def todayStart (now : ℚ) : ℚ := 24 * (⌊now / 24⌋ : ℤ)

/-- The "today" queryset filter: `start_time < now` and
`end_time > todayStart`.  An SQL comparison against a NULL end_time is
not true, so open events are excluded. -/
def inTodayQuery (now : ℚ) (l : ELDLog) : Bool :=
  decide (l.start_time < now) &&
    (match l.end_time with
     | some e => decide (todayStart now < e)
     | none => false)

/-- Duration of a log clipped to `[todayStart now, now)`. -/
def todayDur (now : ℚ) (l : ELDLog) : ℚ :=
  effEndAt now l - max l.start_time (todayStart now)

/-- on_duty_today (hours, unrounded). -/
def onDutyToday (logs : List ELDLog) (now : ℚ) : ℚ :=
  (logs.map (fun l =>
    if inTodayQuery now l ∧ 0 < todayDur now l ∧ isOnDutyType l.event_type
    then todayDur now l else 0)).sum

/-- driving_today (hours, unrounded). -/
def drivingToday (logs : List ELDLog) (now : ℚ) : ℚ :=
  (logs.map (fun l =>
    if inTodayQuery now l ∧ 0 < todayDur now l ∧ l.event_type = EventType.driving
    then todayDur now l else 0)).sum

/-- The HOS snapshot returned by get_hos_status (hour fields rounded to
two decimals as in the source). -/
structure HOSStatus where
  remaining_driving_hours : ℚ
  remaining_duty_window_hours : ℚ
  remaining_cycle_hours : ℚ
  time_until_break_required : ℚ
  on_duty_today : ℚ
  driving_today : ℚ
  cycle_total_hours : ℚ
  shift_start_time : ℚ
  driving_in_shift_hours : ℚ
  duty_window_elapsed_hours : ℚ
  driving_since_last_break_hours : ℚ
  errors : List String
deriving DecidableEq, Repr

/-- The error messages, in detection order (driving, duty window, cycle,
break).  The break message inspects the driver's latest log overall
(`.latest('start_time')`, here the last stored log). -/
def hosErrors (logs : List ELDLog)
    (remaining_driving remaining_window remaining_cycle tub dsb : ℚ) :
    List String :=
  (if remaining_driving ≤ 0 then ["Driving limit reached or exceeded."] else []) ++
  (if remaining_window ≤ 0 then ["Duty window limit reached or exceeded."] else []) ++
  (if remaining_cycle ≤ 0 then ["Cycle limit reached or exceeded."] else []) ++
  (if tub ≤ 0 ∧ 0 < dsb then
    match logs.getLast? with
    | some l =>
      if l.event_type = EventType.driving then
        ["Mandatory break required, currently driving."]
      else ["Mandatory break required."]
    | none => []
   else [])

/-- get_hos_status: the full status snapshot at instant `now` for the
stored log list `logs`. -/
def getHosStatus (logs : List ELDLog) (now : ℚ) : HOSStatus :=
  let cycle_total := cycleTotalHours logs now
  let remaining_cycle := max 0 (70 - cycle_total)
  let sres := shiftStartResult logs now
  let shift_start := sres.getD now
  let driving_in_shift :=
    match sres with
    | none => 0
    | some s => drivingInShift logs s now
  let duty_window_elapsed :=
    match sres with
    | none => 0
    | some s => now - s
  let remaining_driving := max 0 (11 - driving_in_shift)
  let remaining_window := max 0 (14 - duty_window_elapsed)
  let bres := breakScan (descLogsBetween logs shift_start now) now 0
  let dsb :=
    match bres with
    | none => 0
    | some t => drivingSinceBreakSum logs t now
  let tub := max 0 (8 - dsb)
  { remaining_driving_hours := remainingDrivingHours logs now
    remaining_duty_window_hours := round2 remaining_window
    remaining_cycle_hours := round2 remaining_cycle
    time_until_break_required := round2 tub
    on_duty_today := round2 (onDutyToday logs now)
    driving_today := round2 (drivingToday logs now)
    cycle_total_hours := round2 cycle_total
    shift_start_time := shift_start
    driving_in_shift_hours := round2 driving_in_shift
    duty_window_elapsed_hours := round2 duty_window_elapsed
    driving_since_last_break_hours := round2 dsb
    errors := hosErrors logs remaining_driving remaining_window remaining_cycle tub dsb }

example : (getHosStatus [⟨.driving, 98, none, 0⟩] 100).remaining_driving_hours = 11 := by
  norm_num [getHosStatus, remainingDrivingHours, shiftStartResult, descLogs,
    shiftScan, isOffDutyType, round2, bround, List.filter, Int.floor_eq_iff]

/-! ## Timeline materializer (src/routing/services.py, create_route_for_trip)

Walks the stop plan with a wall-clock cursor (seeded at the trip start)
and an elapsed-time marker (seeded at 0); emits a driving event for any
gap above the 0.001-hour epsilon, then the stop's own event. -/

/-- Map a stop reason to the ELD event type logged for it. -/
def reasonToType (reason : String) : EventType :=
  if reason = "Pickup" then .on_duty
  else if reason = "Delivery" then .on_duty
  else if reason = "Fueling" then .on_duty
  else if reason = "30-Minute Break" then .off_duty
  else if reason = "10-Hour Rest Period" then .off_duty
  else .off_duty

/-- The ELD log events generated from a stop plan, starting at wall-clock
`cursor` with elapsed-time marker `lastElapsed`. -/
def materialize : List Stop → ℚ → ℚ → List DutyEvent
  | [], _, _ => []
  | stop :: rest, cursor, lastElapsed =>
    let gap := stop.elapsed_time - lastElapsed
    if 1/1000 < gap then
      { event_type := .driving, start_time := cursor, end_time := cursor + gap,
        duration := gap } ::
      { event_type := reasonToType stop.reason, start_time := cursor + gap,
        end_time := cursor + gap + stop.duration, duration := stop.duration } ::
      materialize rest (cursor + gap + stop.duration)
        (stop.elapsed_time + stop.duration)
    else
      { event_type := reasonToType stop.reason, start_time := cursor,
        end_time := cursor + stop.duration, duration := stop.duration } ::
      materialize rest (cursor + stop.duration)
        (stop.elapsed_time + stop.duration)

/-- A timeline is contiguous from instant `t`: the first event starts at
`t`, every event ends no earlier than it starts, and each subsequent
event starts exactly at the previous event's end (hence the events are
ordered by start_time and never overlap). -/
def contiguousFrom (t : ℚ) : List DutyEvent → Prop
  | [] => True
  | e :: rest =>
    e.start_time = t ∧ e.start_time ≤ e.end_time ∧ contiguousFrom e.end_time rest

/-! ## Duty-status transition (src/tracking/views.py, ChangeELDStatusView)

The history is the trip's stored log list in creation (start_time) order;
`.latest('start_time')` is its last element. -/

/-- Change the driver's current ELD duty status: no-op when the latest
log already has the requested type; otherwise close the latest log if it
is open (end_time := now, duration := elapsed hours) and append a fresh
open log of the new type with duration 0. -/
def changeELDStatus (logs : List ELDLog) (new_status : EventType) (now : ℚ) :
    List ELDLog :=
  match logs.getLast? with
  | none =>
    logs ++ [{ event_type := new_status, start_time := now, end_time := none,
               duration := 0 }]
  | some latest =>
    if latest.event_type = new_status then logs
    else
      (if latest.end_time = none then
        logs.dropLast ++
          [{ latest with end_time := some now, duration := now - latest.start_time }]
       else logs) ++
      [{ event_type := new_status, start_time := now, end_time := none,
         duration := 0 }]

/-! ## Rounding lemmas -/

lemma bround_ge_floor (x : ℚ) : ⌊x⌋ ≤ bround x := by
  unfold bround; split_ifs <;> omega

lemma bround_le_floor_add_one (x : ℚ) : bround x ≤ ⌊x⌋ + 1 := by
  unfold bround; split_ifs <;> omega

lemma bround_mono {x y : ℚ} (h : x ≤ y) : bround x ≤ bround y := by
  rcases lt_or_eq_of_le (Int.floor_mono h) with hf | hf
  · calc bround x ≤ ⌊x⌋ + 1 := bround_le_floor_add_one x
      _ ≤ ⌊y⌋ := by omega
      _ ≤ bround y := bround_ge_floor y
  · unfold bround
    rw [← hf]
    split_ifs <;> first | omega | linarith

lemma round2_mono {x y : ℚ} (h : x ≤ y) : round2 x ≤ round2 y := by
  unfold round2
  have h1 : bround (x * 100) ≤ bround (y * 100) := bround_mono (by linarith)
  have h2 : ((bround (x * 100) : ℤ) : ℚ) ≤ ((bround (y * 100) : ℤ) : ℚ) :=
    Int.cast_le.mpr h1
  linarith

/-! ## C1: planner non-termination once the cycle limit is reached

If the state has positive remaining distance and at least 70 cycle
hours, the forced-stop branch emits a 10-hour rest without changing
either the remaining distance or the cycle hours, so the loop never
makes progress again. -/

lemma maxDriveDist_nonpos_of_cycle (a : ℚ) (s : PlanState) (ha : 0 < a)
    (hc : 70 ≤ s.on_duty_hours_in_cycle) : maxDriveDist a s ≤ 0 := by
  have h70 : (70 - s.on_duty_hours_in_cycle) * a ≤ 0 :=
    mul_nonpos_iff.mpr (Or.inr ⟨by linarith, le_of_lt ha⟩)
  calc maxDriveDist a s
      ≤ min ((11 - s.driving_time_in_shift) * a)
          (min ((14 - s.duty_window_elapsed) * a)
            (min ((8 - s.driving_since_last_break) * a)
              (min ((70 - s.on_duty_hours_in_cycle) * a) 1000))) :=
        min_le_right _ _
    _ ≤ min ((14 - s.duty_window_elapsed) * a)
          (min ((8 - s.driving_since_last_break) * a)
            (min ((70 - s.on_duty_hours_in_cycle) * a) 1000)) := min_le_right _ _
    _ ≤ min ((8 - s.driving_since_last_break) * a)
          (min ((70 - s.on_duty_hours_in_cycle) * a) 1000) := min_le_right _ _
    _ ≤ min ((70 - s.on_duty_hours_in_cycle) * a) 1000 := min_le_right _ _
    _ ≤ (70 - s.on_duty_hours_in_cycle) * a := min_le_left _ _
    _ ≤ 0 := h70

lemma loopBody_cycle_stuck (d a : ℚ) (coords : List (ℚ × ℚ)) (s : PlanState)
    (ha : 0 < a) (hc : 70 ≤ s.on_duty_hours_in_cycle) :
    (loopBody d a coords s).1.remaining_distance = s.remaining_distance ∧
      (loopBody d a coords s).1.on_duty_hours_in_cycle = s.on_duty_hours_in_cycle := by
  have hm := maxDriveDist_nonpos_of_cycle a s ha hc
  unfold loopBody
  rw [if_pos hm, if_pos (Or.inr (Or.inr hc))]
  unfold emitStop
  simp

lemma planLoop_cycle_stuck (d a : ℚ) (coords : List (ℚ × ℚ)) (ha : 0 < a) :
    ∀ (fuel : ℕ) (s : PlanState), 0 < s.remaining_distance →
      70 ≤ s.on_duty_hours_in_cycle → planLoop d a coords fuel s = none := by
  intro fuel
  induction fuel with
  | zero => intro s h1 _; simp [planLoop, if_pos h1]
  | succ f ih =>
    intro s h1 h2
    obtain ⟨hrem, hcyc⟩ := loopBody_cycle_stuck d a coords s ha h2
    have := ih (loopBody d a coords s).1 (by rw [hrem]; exact h1) (by rw [hcyc]; exact h2)
    simp [planLoop, if_pos h1, this]

/-- C1: the claim that the planner terminates for every valid input is
violated by the code.  With distance 100 mi, driving duration 2 h,
cycle_used 70 and a 2-point polyline (all within the stated input
domain), the main loop keeps emitting 10-hour rests forever because
on_duty_hours_in_cycle is never reduced below the 70-hour limit: for
every iteration bound the simulation is still running, i.e. no finite
stop list is ever returned. -/
theorem planner_nontermination_at_cycle_limit :
    ∀ fuel : ℕ, getStopsAlongRoute fuel 100 2 70 [((0:ℚ), (0:ℚ)), (1, 1)] = none := by
  intro fuel
  have hs : planLoop 100 (if (0:ℚ) < 2 then (100:ℚ) / 2 else 65) [((0:ℚ), (0:ℚ)), (1, 1)] fuel
      { remaining_distance := 100, elapsed_trip_time := 1, driving_time_in_shift := 0,
        driving_since_last_break := 0, duty_window_elapsed := 1,
        on_duty_hours_in_cycle := 70 + 1, current_position_index := 0 } = none := by
    apply planLoop_cycle_stuck
    · norm_num
    · norm_num
    · norm_num
  simp only [getStopsAlongRoute, hs]

/-! ## C4: duty-status transition -/

/-- C4: when the most recent event of the history is open, requesting its
own type is a no-op (no event created, none modified); requesting a
different type closes the open event with end_time = now and duration =
elapsed hours, and appends exactly one new open event of the requested
type with duration 0. -/
theorem change_eld_status_transition (init : List ELDLog) (e : ELDLog)
    (ns : EventType) (now : ℚ) (hopen : e.end_time = none) :
    (ns = e.event_type → changeELDStatus (init ++ [e]) ns now = init ++ [e]) ∧
    (ns ≠ e.event_type →
      changeELDStatus (init ++ [e]) ns now =
        init ++
          [{ e with end_time := some now, duration := now - e.start_time },
           { event_type := ns, start_time := now, end_time := none, duration := 0 }]) := by
  constructor
  · intro hsame
    simp [changeELDStatus, List.getLast?_concat, hsame.symm]
  · intro hdiff
    have hne : ¬ e.event_type = ns := fun h => hdiff h.symm
    simp [changeELDStatus, List.getLast?_concat, hne, hopen,
      List.dropLast_concat]

/-- Witness for C4 at a concrete history: one open driving event, a
requested switch to on_duty at time 2. -/
theorem change_eld_status_transition_witness :
    changeELDStatus [⟨EventType.driving, 0, none, 0⟩] EventType.on_duty 2 =
      [⟨EventType.driving, 0, some 2, 2⟩, ⟨EventType.on_duty, 2, none, 0⟩] := by
  have h := (change_eld_status_transition [] ⟨EventType.driving, 0, none, 0⟩
    EventType.on_duty 2 rfl).2 (by simp)
  simpa using h

/-! ## C8: materializer contiguity -/

lemma materialize_contiguous (stops : List Stop) :
    ∀ (cursor lastElapsed : ℚ), (∀ s ∈ stops, 0 ≤ s.duration) →
      contiguousFrom cursor (materialize stops cursor lastElapsed) := by
  induction stops with
  | nil => intro cursor lastElapsed _; simp [materialize, contiguousFrom]
  | cons stop rest ih =>
    intro cursor lastElapsed h
    have hdur : 0 ≤ stop.duration := h stop (by simp)
    have hrest : ∀ s ∈ rest, 0 ≤ s.duration := fun s hs => h s (by simp [hs])
    by_cases hgap : 1/1000 < stop.elapsed_time - lastElapsed
    · simp only [materialize, if_pos hgap]
      exact ⟨rfl, by dsimp only; linarith, rfl, by dsimp only; linarith, ih _ _ hrest⟩
    · simp only [materialize, if_neg hgap]
      exact ⟨rfl, by dsimp only; linarith, ih _ _ hrest⟩

/-- C8: for every stop plan with non-negative stop durations and every
trip start instant, the materialized duty-event sequence is contiguous
and non-overlapping: the first event starts at the trip start, every
event's start equals the previous event's end, and start times are
non-decreasing — whether or not driving-gap events are emitted (gaps at
or below the 0.001 h epsilon are skipped without leaving a hole). -/
theorem materializer_contiguous (stops : List Stop) (t0 : ℚ)
    (h : ∀ s ∈ stops, 0 ≤ s.duration) :
    contiguousFrom t0 (materialize stops t0 0) :=
  materialize_contiguous stops t0 0 h

/-- Witness for C8 on a concrete two-stop plan (a pickup at elapsed 0 and
a delivery at elapsed 3, i.e. with a driving gap) from trip start 5. -/
theorem materializer_contiguous_witness :
    contiguousFrom 5 (materialize
      [{ location := "Pickup Point", reason := "Pickup", duration := 1,
         coordinates := (0, 0), elapsed_time := 0 },
       { location := "Dropoff Point", reason := "Delivery", duration := 1,
         coordinates := (1, 1), elapsed_time := 3 }] 5 0) :=
  materializer_contiguous _ 5 (by intro s hs; fin_cases hs <;> norm_num)

/-! ## C5: stop priority after a positive driving segment -/

/-- C5: in a loop iteration that drives a positive segment, at most one
stop is emitted, chosen in strict priority order on the post-segment
state: a 10-Hour Rest Period when the 11-hour shift, 14-hour window or
70-hour cycle limit is reached; otherwise a 30-Minute Break when 8 hours
of driving since the last break are reached; otherwise a Fueling stop
when the segment consumed the full 1000-mile interval and distance
remains; fueling adds its duration to both the duty-window and the cycle
accumulators.  With no trigger, no stop is emitted. -/
theorem planner_stop_priority (d a : ℚ) (coords : List (ℚ × ℚ)) (s : PlanState)
    (h : 0 < maxDriveDist a s) :
    (loopBody d a coords s).2.length ≤ 1 ∧
    ((11 ≤ (driveAdvance d a coords s).driving_time_in_shift ∨
        14 ≤ (driveAdvance d a coords s).duty_window_elapsed ∨
        70 ≤ (driveAdvance d a coords s).on_duty_hours_in_cycle) →
      (loopBody d a coords s).2.map Stop.reason = ["10-Hour Rest Period"]) ∧
    (¬(11 ≤ (driveAdvance d a coords s).driving_time_in_shift ∨
        14 ≤ (driveAdvance d a coords s).duty_window_elapsed ∨
        70 ≤ (driveAdvance d a coords s).on_duty_hours_in_cycle) →
      8 ≤ (driveAdvance d a coords s).driving_since_last_break →
      (loopBody d a coords s).2.map Stop.reason = ["30-Minute Break"]) ∧
    (¬(11 ≤ (driveAdvance d a coords s).driving_time_in_shift ∨
        14 ≤ (driveAdvance d a coords s).duty_window_elapsed ∨
        70 ≤ (driveAdvance d a coords s).on_duty_hours_in_cycle) →
      ¬ 8 ≤ (driveAdvance d a coords s).driving_since_last_break →
      (1000 ≤ maxDriveDist a s ∧ 0 < (driveAdvance d a coords s).remaining_distance) →
      (loopBody d a coords s).2.map Stop.reason = ["Fueling"] ∧
      (loopBody d a coords s).1.duty_window_elapsed =
        (driveAdvance d a coords s).duty_window_elapsed + 1/2 ∧
      (loopBody d a coords s).1.on_duty_hours_in_cycle =
        (driveAdvance d a coords s).on_duty_hours_in_cycle + 1/2) ∧
    (¬(11 ≤ (driveAdvance d a coords s).driving_time_in_shift ∨
        14 ≤ (driveAdvance d a coords s).duty_window_elapsed ∨
        70 ≤ (driveAdvance d a coords s).on_duty_hours_in_cycle) →
      ¬ 8 ≤ (driveAdvance d a coords s).driving_since_last_break →
      ¬(1000 ≤ maxDriveDist a s ∧ 0 < (driveAdvance d a coords s).remaining_distance) →
      (loopBody d a coords s).2 = []) := by
  have hn : ¬ maxDriveDist a s ≤ 0 := not_le.mpr h
  simp only [loopBody, if_neg hn]
  by_cases h1 : 11 ≤ (driveAdvance d a coords s).driving_time_in_shift ∨
      14 ≤ (driveAdvance d a coords s).duty_window_elapsed ∨
      70 ≤ (driveAdvance d a coords s).on_duty_hours_in_cycle
  · simp [stopCheck, if_pos h1, emitStop, h1]
  · by_cases h2 : 8 ≤ (driveAdvance d a coords s).driving_since_last_break
    · simp [stopCheck, if_neg h1, if_pos h2, emitStop, h1, h2]
    · by_cases h3 : 1000 ≤ maxDriveDist a s ∧
          0 < (driveAdvance d a coords s).remaining_distance
      · simp [stopCheck, if_neg h1, if_neg h2, if_pos h3, emitStop, h1, h2, h3]
      · simp [stopCheck, if_neg h1, if_neg h2, if_neg h3, emitStop, h1, h2, h3]

/-- Witness for C5: a concrete state with a positive drivable segment
(distance 5 at speed 1, all accumulators 0). -/
theorem planner_stop_priority_witness :
    (loopBody 1 1 [((0:ℚ), (0:ℚ))] ⟨5, 0, 0, 0, 0, 0, 0⟩).2.length ≤ 1 :=
  (planner_stop_priority 1 1 [((0:ℚ), (0:ℚ))] ⟨5, 0, 0, 0, 0, 0, 0⟩
    (by norm_num [maxDriveDist, min_def])).1

/-! ## C6: invalid planner input is not rejected -/

/-- C6 counterexample: for the invalid input distance = 0 (with a valid
2-point polyline) the planner does not fail fast: it silently skips the
simulation and returns a stop list consisting of just the Pickup and
Dropoff stops, with no error surfaced to the caller. -/
theorem planner_invalid_distance_returns_stops :
    getStopsAlongRoute 1 0 1 0 [((0:ℚ), (0:ℚ)), (1, 1)] =
      some [{ location := "Pickup Point", reason := "Pickup", duration := 1,
              coordinates := (0, 0), elapsed_time := 0 },
            { location := "Dropoff Point", reason := "Delivery", duration := 1,
              coordinates := (1, 1), elapsed_time := 1 }] := by
  norm_num [getStopsAlongRoute, planLoop]

lemma planLoop_done (d a : ℚ) (coords : List (ℚ × ℚ)) (fuel : ℕ)
    (s : PlanState) (h : ¬ 0 < s.remaining_distance) :
    planLoop d a coords fuel s = some ([], s) := by
  cases fuel <;> simp [planLoop, h]

/-- C6 amended: the planner performs no input validation.  For every
distance ≤ 0 and every non-empty polyline it skips the simulation loop
entirely and silently returns just the Pickup and Dropoff stops; only an
empty polyline fails (with an uncaught index error, not a deliberate
check), and a 1-point polyline is likewise accepted silently. -/
theorem planner_nonpositive_distance_silent (fuel : ℕ) (d dur cyc : ℚ)
    (c0 : ℚ × ℚ) (cs : List (ℚ × ℚ)) (hd : d ≤ 0) :
    getStopsAlongRoute fuel d dur cyc (c0 :: cs) =
      some [{ location := "Pickup Point", reason := "Pickup", duration := 1,
              coordinates := c0, elapsed_time := 0 },
            { location := "Dropoff Point", reason := "Delivery", duration := 1,
              coordinates := (c0 :: cs).getLast (List.cons_ne_nil c0 cs),
              elapsed_time := 1 }] := by
  have h := planLoop_done d (if 0 < dur then d / dur else 65) (c0 :: cs) fuel
    { remaining_distance := d, elapsed_trip_time := 1, driving_time_in_shift := 0,
      driving_since_last_break := 0, duty_window_elapsed := 1,
      on_duty_hours_in_cycle := cyc + 1, current_position_index := 0 }
    (by simp; linarith)
  simp only [getStopsAlongRoute, h]
  simp

/-- Witness for C6's amended statement at distance -5. -/
theorem planner_nonpositive_distance_silent_witness :
    getStopsAlongRoute 3 (-5) 1 0 [((0:ℚ), (0:ℚ)), (1, 1)] =
      some [{ location := "Pickup Point", reason := "Pickup", duration := 1,
              coordinates := (0, 0), elapsed_time := 0 },
            { location := "Dropoff Point", reason := "Delivery", duration := 1,
              coordinates :=
                ([((0:ℚ), (0:ℚ)), (1, 1)]).getLast (List.cons_ne_nil _ _),
              elapsed_time := 1 }] :=
  planner_nonpositive_distance_silent 3 (-5) 1 0 (0, 0) [(1, 1)] (by norm_num)

/-! ## C10: every emitted stop's coordinates lie on the polyline -/

lemma getD_mem {α : Type} : ∀ (l : List α) (n : ℕ), n < l.length → ∀ z : α,
    l.getD n z ∈ l := by
  intro l
  induction l with
  | nil => intro n h z; simp at h
  | cons x xs ih =>
    intro n h z
    cases n with
    | zero => simp [List.getD_cons_zero]
    | succ m =>
      rw [List.getD_cons_succ]
      exact List.mem_cons_of_mem x (ih m (by simpa using h) z)

lemma getD_clamped_mem {α : Type} (l : List α) (k : ℕ) (z : α)
    (h : l ≠ []) : l.getD (min k (l.length - 1)) z ∈ l := by
  have hpos : 0 < l.length := List.length_pos.mpr h
  exact getD_mem l _ (by omega) z

lemma emitStop_coords_mem (coords : List (ℚ × ℚ)) (s1 : PlanState)
    (reason : String) (dur : ℚ) (reset : Bool) (h : coords ≠ []) :
    ∀ st ∈ (emitStop coords s1 reason dur reset).2, st.coordinates ∈ coords := by
  intro st hst
  simp only [emitStop, List.mem_singleton] at hst
  subst hst
  exact getD_clamped_mem coords _ _ h

lemma loopBody_coords_mem (d a : ℚ) (coords : List (ℚ × ℚ)) (s : PlanState)
    (h : coords ≠ []) :
    ∀ st ∈ (loopBody d a coords s).2, st.coordinates ∈ coords := by
  intro st hst
  unfold loopBody at hst
  by_cases hm : maxDriveDist a s ≤ 0
  · rw [if_pos hm] at hst
    split_ifs at hst <;> exact emitStop_coords_mem coords _ _ _ _ h st hst
  · rw [if_neg hm] at hst
    unfold stopCheck at hst
    split_ifs at hst <;>
      first
        | exact emitStop_coords_mem coords _ _ _ _ h st hst
        | simp at hst

lemma planLoop_coords_mem (d a : ℚ) (coords : List (ℚ × ℚ)) (h : coords ≠ []) :
    ∀ (fuel : ℕ) (s : PlanState) (stops : List Stop) (sf : PlanState),
      planLoop d a coords fuel s = some (stops, sf) →
      ∀ st ∈ stops, st.coordinates ∈ coords := by
  intro fuel
  induction fuel with
  | zero =>
    intro s stops sf hsome st hst
    by_cases hrem : 0 < s.remaining_distance
    · simp [planLoop, hrem] at hsome
    · simp [planLoop, hrem] at hsome
      rw [hsome.1] at hst
      simp at hst
  | succ f ih =>
    intro s stops sf hsome st hst
    by_cases hrem : 0 < s.remaining_distance
    · simp only [planLoop, if_pos hrem] at hsome
      rcases hp : planLoop d a coords f (loopBody d a coords s).1 with _ | ⟨rest, sf2⟩
      · rw [hp] at hsome; simp at hsome
      · rw [hp] at hsome
        simp only [Option.some.injEq, Prod.mk.injEq] at hsome
        rw [← hsome.1] at hst
        rcases List.mem_append.mp hst with hmem | hmem
        · exact loopBody_coords_mem d a coords s h st hmem
        · exact ih _ _ _ hp st hmem
    · simp [planLoop, hrem] at hsome
      rw [hsome.1] at hst
      simp at hst

/-- C10: whenever the planner returns a stop list for a non-empty
polyline, every stop's coordinates are an element of that polyline
(every list access is clamped with min(index, length - 1)); moreover the
first stop (Pickup) carries the first coordinate and the last stop
(Delivery) carries the last coordinate. -/
theorem planner_stop_coordinates_on_polyline (fuel : ℕ) (d dur cyc : ℚ)
    (c0 : ℚ × ℚ) (cs : List (ℚ × ℚ)) (stops : List Stop)
    (h : getStopsAlongRoute fuel d dur cyc (c0 :: cs) = some stops) :
    (∀ st ∈ stops, st.coordinates ∈ c0 :: cs) ∧
    (stops.head?.map Stop.coordinates = some c0) ∧
    (stops.getLast?.map Stop.coordinates =
      some ((c0 :: cs).getLast (List.cons_ne_nil c0 cs))) := by
  simp only [getStopsAlongRoute] at h
  rcases hp : planLoop d (if 0 < dur then d / dur else 65) (c0 :: cs) fuel
      { remaining_distance := d, elapsed_trip_time := 1, driving_time_in_shift := 0,
        driving_since_last_break := 0, duty_window_elapsed := 1,
        on_duty_hours_in_cycle := cyc + 1, current_position_index := 0 }
    with _ | ⟨mids, sf⟩
  · rw [hp] at h; simp at h
  · rw [hp] at h
    simp only [Option.some.injEq] at h
    constructor
    · intro st hst
      rw [← h] at hst
      rcases List.mem_cons.mp hst with hmem | hmem
      · rw [hmem]; simp
      · rcases List.mem_append.mp hmem with hmem2 | hmem2
        · exact planLoop_coords_mem d _ _ (List.cons_ne_nil c0 cs) fuel _ _ _ hp st hmem2
        · simp only [List.mem_singleton] at hmem2
          rw [hmem2]
          exact List.getLast_mem _
    · constructor
      · rw [← h]; simp
      · rw [← h, List.getLast?_concat]
        simp

/-- Witness for C10: the concrete 100-mile, 2-hour trip on a 2-point
polyline, whose computed plan is Pickup followed by Dropoff. -/
theorem planner_stop_coordinates_on_polyline_witness :
    ([⟨"Pickup Point", "Pickup", 1, (0, 0), 0⟩,
      ⟨"Dropoff Point", "Delivery", 1, (1, 1), 3⟩] : List Stop).head?.map
        Stop.coordinates = some ((0:ℚ), (0:ℚ)) :=
  (planner_stop_coordinates_on_polyline 2 100 2 0 (0, 0) [(1, 1)]
    [⟨"Pickup Point", "Pickup", 1, (0, 0), 0⟩,
     ⟨"Dropoff Point", "Delivery", 1, (1, 1), 3⟩]
    (by norm_num [getStopsAlongRoute, planLoop, loopBody, stopCheck, emitStop,
      driveAdvance, maxDriveDist, min_def])).2.1

/-! ## C2, C3, C7: status-calculator evaluations -/

/-- C2: the claimed Scenario C output is violated by the code.  For the
history consisting of exactly one open driving event started 2 hours
before now (here now = 100, start = 98), the backward shift search finds
no qualifying rest and no log at the cycle boundary, so the calculator
falls back to a fresh shift at `now` and returns
remaining_driving_hours = 11.0 and driving_since_last_break_hours = 0.0
(not the claimed 9.0 and 2.0); the errors list is empty as claimed. -/
theorem hos_status_scenario_c_eval :
    (getHosStatus [⟨EventType.driving, 98, none, 0⟩] 100).remaining_driving_hours = 11 ∧
    (getHosStatus [⟨EventType.driving, 98, none, 0⟩] 100).driving_since_last_break_hours = 0 ∧
    (getHosStatus [⟨EventType.driving, 98, none, 0⟩] 100).errors = [] := by
  refine ⟨?_, ?_, ?_⟩
  · norm_num [getHosStatus, remainingDrivingHours, shiftStartResult, descLogs,
      shiftScan, isOffDutyType, round2, bround, List.filter]
  · norm_num [getHosStatus, shiftStartResult, descLogs, descLogsBetween,
      shiftScan, breakScan, isOffDutyType, round2, bround, List.filter]
  · norm_num [getHosStatus, hosErrors, remainingDrivingHours, shiftStartResult,
      descLogs, descLogsBetween, shiftScan, breakScan, cycleTotalHours,
      cycleContrib, effEndAt, isOffDutyType, isOnDutyType, round2, bround,
      List.filter, max_def]

/-- A cycle total computed directly from the specification's words:
each driving/on_duty event contributes the length of the overlap of
[start_time, end_time-or-now] with the window [now - 192 h, now).
Modelled from the spec for comparison with the source's cycleTotalHours. -/
def cycleTotalSpec (logs : List ELDLog) (now : ℚ) : ℚ :=
  (logs.map (fun l =>
    if isOnDutyType l.event_type then
      max 0 (min (match l.end_time with | some e => e | none => now) now -
        max l.start_time (now - 192))
    else 0)).sum

/-- C3: the claimed window clipping is violated by the code.  A driving
event spanning [now - 216 h, now - 168 h] overlaps the 8-day window
[now - 192 h, now) for 24 hours (the spec-side sum), but the code's
queryset keeps only events with start_time inside the window, so the
event is dropped entirely and the cycle total is 0 (the in-loop clip
max(start_time, window_start) is dead code). -/
theorem cycle_total_boundary_clipping_eval :
    cycleTotalHours [⟨EventType.driving, -116, some (-68), 48⟩] 100 = 0 ∧
    cycleTotalSpec [⟨EventType.driving, -116, some (-68), 48⟩] 100 = 24 := by
  constructor
  · norm_num [cycleTotalHours, cycleContrib]
  · norm_num [cycleTotalSpec, isOnDutyType, max_def, min_def]

/-- C7: the claim that open events contribute to the "today" totals is
violated by the code.  For the history consisting of one open driving
event started 1 hour before now (now = 100, midnight = 96, start = 99),
the today queryset filters on end_time > midnight, which an SQL NULL
end_time never satisfies, so the open event is excluded and both today
totals are 0 (the claim expects driving_today = on_duty_today = 1.0);
the in-loop handling of a missing end_time is dead code. -/
theorem today_totals_exclude_open_event_eval :
    (getHosStatus [⟨EventType.driving, 99, none, 0⟩] 100).driving_today = 0 ∧
    (getHosStatus [⟨EventType.driving, 99, none, 0⟩] 100).on_duty_today = 0 := by
  constructor
  · norm_num [getHosStatus, drivingToday, inTodayQuery, round2, bround]
  · norm_num [getHosStatus, onDutyToday, inTodayQuery, round2, bround]

/-! ## C9: monotonicity of remaining_driving_hours in `now` -/

/-- C9 counterexample: remaining_driving_hours is not non-increasing in
`now` on a fixed history with no event inserted between the calls.  The
history ends in an open off_duty event, so rest accrues as `now`
advances: at now = 9 the calculator returns 3.0 remaining driving hours,
while at now = 18.5 the open rest qualifies as a new 10-hour break and
the value rises back to 11.0. -/
theorem remaining_driving_increases_counterexample :
    (9:ℚ) ≤ 37/2 ∧
    (getHosStatus [⟨EventType.off_duty, -12, some 0, 12⟩,
        ⟨EventType.driving, 0, some 8, 8⟩,
        ⟨EventType.off_duty, 8, none, 0⟩] 9).remaining_driving_hours <
      (getHosStatus [⟨EventType.off_duty, -12, some 0, 12⟩,
        ⟨EventType.driving, 0, some 8, 8⟩,
        ⟨EventType.off_duty, 8, none, 0⟩] (37/2)).remaining_driving_hours := by
  have h1 : (getHosStatus [⟨EventType.off_duty, -12, some 0, 12⟩,
      ⟨EventType.driving, 0, some 8, 8⟩,
      ⟨EventType.off_duty, 8, none, 0⟩] 9).remaining_driving_hours = 3 := by
    norm_num [getHosStatus, remainingDrivingHours, shiftStartResult, descLogs,
      shiftScan, drivingInShift, shiftContrib, effEndAt, isOffDutyType, round2,
      bround, List.filter, max_def]
    simp
    norm_num [Int.fract]
  have h2 : (getHosStatus [⟨EventType.off_duty, -12, some 0, 12⟩,
      ⟨EventType.driving, 0, some 8, 8⟩,
      ⟨EventType.off_duty, 8, none, 0⟩] (37/2)).remaining_driving_hours = 11 := by
    norm_num [getHosStatus, remainingDrivingHours, shiftStartResult, descLogs,
      shiftScan, drivingInShift, shiftContrib, effEndAt, isOffDutyType, round2,
      bround, List.filter, max_def]
  rw [h1, h2]
  norm_num

lemma shiftScan_cycleStart_rel (cs1 cs2 : ℚ) :
    ∀ (ls : List ELDLog) (prev acc : ℚ),
      (∀ l ∈ ls, (l.start_time ≤ cs1 ↔ l.start_time ≤ cs2)) →
      shiftScan cs1 ls prev acc = shiftScan cs2 ls prev acc ∨
        (shiftScan cs1 ls prev acc = some cs1 ∧
          shiftScan cs2 ls prev acc = some cs2) := by
  intro ls
  induction ls with
  | nil => intro prev acc _; left; rfl
  | cons log rest ih =>
    intro prev acc hequiv
    simp only [shiftScan]
    by_cases h1 : (isOffDutyType log.event_type : Prop) ∧
        10 ≤ acc + ((match log.end_time with
          | some e => if e < prev then e else prev
          | none => prev) - log.start_time)
    · rw [if_pos h1, if_pos h1]
      left; rfl
    · rw [if_neg h1, if_neg h1]
      by_cases h2 : log.start_time ≤ cs1
      · have h2' : log.start_time ≤ cs2 := (hequiv log (by simp)).mp h2
        rw [if_pos h2, if_pos h2']
        right; exact ⟨rfl, rfl⟩
      · have h2' : ¬ log.start_time ≤ cs2 :=
          fun hh => h2 ((hequiv log (by simp)).mpr hh)
        rw [if_neg h2, if_neg h2']
        exact ih _ _ (fun l hl => hequiv l (List.mem_cons_of_mem _ hl))

lemma effEndAt_mono (l : ELDLog) {now1 now2 : ℚ} (h12 : now1 ≤ now2) :
    effEndAt now1 l ≤ effEndAt now2 l := by
  unfold effEndAt
  rcases l.end_time with _ | e
  · exact h12
  · dsimp only
    split_ifs <;> linarith

lemma shiftContrib_mono (s1 s2 now1 now2 : ℚ) (l : ELDLog)
    (h12 : now1 ≤ now2) (hs : s1 ≤ l.start_time ↔ s2 ≤ l.start_time)
    (hst : l.start_time < now1) :
    shiftContrib s1 now1 l ≤ shiftContrib s2 now2 l := by
  have heff : effEndAt now1 l ≤ effEndAt now2 l := effEndAt_mono l h12
  simp only [shiftContrib]
  by_cases hin : s1 ≤ l.start_time ∧ l.start_time < now1
  · have hin2 : s2 ≤ l.start_time ∧ l.start_time < now2 :=
      ⟨hs.mp hin.1, lt_of_lt_of_le hst h12⟩
    rw [if_pos hin, if_pos hin2]
    by_cases hd : l.event_type = EventType.driving ∧
        0 < effEndAt now1 l - l.start_time
    · have hd2 : l.event_type = EventType.driving ∧
          0 < effEndAt now2 l - l.start_time := ⟨hd.1, by linarith [hd.2]⟩
      rw [if_pos hd, if_pos hd2]
      linarith
    · rw [if_neg hd]
      split_ifs with hd2
      · linarith [hd2.2]
      · linarith
  · have hin2 : ¬ (s2 ≤ l.start_time ∧ l.start_time < now2) := by
      intro hh
      exact hin ⟨hs.mpr hh.1, hst⟩
    rw [if_neg hin, if_neg hin2]

lemma drivingInShift_mono (logs : List ELDLog) (s1 s2 now1 now2 : ℚ)
    (h12 : now1 ≤ now2)
    (hs : ∀ l ∈ logs, (s1 ≤ l.start_time ↔ s2 ≤ l.start_time))
    (hst : ∀ l ∈ logs, l.start_time < now1) :
    drivingInShift logs s1 now1 ≤ drivingInShift logs s2 now2 := by
  unfold drivingInShift
  exact List.sum_le_sum (fun l hl =>
    shiftContrib_mono s1 s2 now1 now2 l h12 (hs l hl) (hst l hl))

/-- C9 amended: remaining_driving_hours is non-increasing in `now` for a
fixed history provided that, in addition to no new event being inserted,
(a) the history's most recent event is an open driving event (so no
off-duty rest accrues between the calls, which the counterexample shows
would restore hours), and (b) no event's start time lies in the band
[now1 - 192 h, now2 - 192 h] swept by the moving cycle-window boundary
(whose fallback in the shift search would otherwise change the shift
start between the calls). -/
theorem remaining_driving_monotone_amended (init : List ELDLog) (e : ELDLog)
    (now1 now2 : ℚ) (h12 : now1 ≤ now2)
    (he_type : e.event_type = EventType.driving)
    (he_open : e.end_time = none)
    (hstart : ∀ l ∈ init ++ [e], l.start_time < now1)
    (hbnd : ∀ l ∈ init ++ [e],
      l.start_time < now1 - 192 ∨ now2 - 192 < l.start_time) :
    (getHosStatus (init ++ [e]) now2).remaining_driving_hours ≤
      (getHosStatus (init ++ [e]) now1).remaining_driving_hours := by
  have hfield : ∀ now : ℚ,
      (getHosStatus (init ++ [e]) now).remaining_driving_hours =
        remainingDrivingHours (init ++ [e]) now := fun _ => rfl
  rw [hfield, hfield]
  have hdesc : ∀ now : ℚ, now1 ≤ now →
      descLogs (init ++ [e]) now = e :: init.reverse := by
    intro now hnow
    unfold descLogs
    have hf : (init ++ [e]).filter (fun l => decide (l.start_time < now)) =
        init ++ [e] :=
      List.filter_eq_self.mpr (fun a ha => by
        simpa using lt_of_lt_of_le (hstart a ha) hnow)
    rw [hf]
    simp
  have hd1 := hdesc now1 le_rfl
  have hd2 := hdesc now2 h12
  have hstep : ∀ (cs prev : ℚ),
      shiftScan cs (e :: init.reverse) prev 0 =
        if e.start_time ≤ cs then some cs
        else shiftScan cs init.reverse e.start_time 0 := by
    intro cs prev
    simp only [shiftScan, he_open, he_type, isOffDutyType]
    simp
  have hstmem : ∀ l ∈ init.reverse, l.start_time < now1 := fun l hl =>
    hstart l (List.mem_append_left _ (List.mem_reverse.mp hl))
  have hbndmem : ∀ l ∈ init.reverse,
      l.start_time < now1 - 192 ∨ now2 - 192 < l.start_time := fun l hl =>
    hbnd l (List.mem_append_left _ (List.mem_reverse.mp hl))
  have hequiv : ∀ l ∈ init.reverse,
      (l.start_time ≤ now1 - 192 ↔ l.start_time ≤ now2 - 192) := by
    intro l hl
    rcases hbndmem l hl with h | h
    · exact iff_of_true (by linarith) (by linarith)
    · exact iff_of_false (by linarith) (by linarith)
  have hsiff : ∀ l ∈ init ++ [e],
      (now1 - 192 ≤ l.start_time ↔ now2 - 192 ≤ l.start_time) := by
    intro l hl
    rcases hbnd l hl with h | h
    · exact iff_of_false (by linarith) (by linarith)
    · exact iff_of_true (by linarith) (by linarith)
  have hboundary_le :
      remainingDrivingHours (init ++ [e]) now2 =
        round2 (max 0 (11 - drivingInShift (init ++ [e]) (now2 - 192) now2)) →
      remainingDrivingHours (init ++ [e]) now1 =
        round2 (max 0 (11 - drivingInShift (init ++ [e]) (now1 - 192) now1)) →
      remainingDrivingHours (init ++ [e]) now2 ≤
        remainingDrivingHours (init ++ [e]) now1 := by
    intro hv2 hv1
    rw [hv1, hv2]
    apply round2_mono
    have hdis : drivingInShift (init ++ [e]) (now1 - 192) now1 ≤
        drivingInShift (init ++ [e]) (now2 - 192) now2 :=
      drivingInShift_mono _ _ _ _ _ h12 hsiff hstart
    exact max_le_max le_rfl (by linarith)
  rcases hbnd e (by simp) with hA | hB
  · have hA1 : e.start_time ≤ now1 - 192 := le_of_lt hA
    have hA2 : e.start_time ≤ now2 - 192 := by linarith
    have hr1 : shiftStartResult (init ++ [e]) now1 = some (now1 - 192) := by
      unfold shiftStartResult
      rw [hd1, hstep, if_pos hA1]
    have hr2 : shiftStartResult (init ++ [e]) now2 = some (now2 - 192) := by
      unfold shiftStartResult
      rw [hd2, hstep, if_pos hA2]
    apply hboundary_le
    · unfold remainingDrivingHours
      rw [hr2]
    · unfold remainingDrivingHours
      rw [hr1]
  · have hB1 : ¬ e.start_time ≤ now1 - 192 := by push_neg; linarith
    have hB2 : ¬ e.start_time ≤ now2 - 192 := by push_neg; linarith
    have hr1 : shiftStartResult (init ++ [e]) now1 =
        shiftScan (now1 - 192) init.reverse e.start_time 0 := by
      unfold shiftStartResult
      rw [hd1, hstep, if_neg hB1]
    have hr2 : shiftStartResult (init ++ [e]) now2 =
        shiftScan (now2 - 192) init.reverse e.start_time 0 := by
      unfold shiftStartResult
      rw [hd2, hstep, if_neg hB2]
    rcases shiftScan_cycleStart_rel (now1 - 192) (now2 - 192) init.reverse
        e.start_time 0 hequiv with heq | ⟨hb1, hb2⟩
    · rcases hv : shiftScan (now1 - 192) init.reverse e.start_time 0 with _ | s
      · unfold remainingDrivingHours
        rw [hr1, hr2, ← heq, hv]
      · unfold remainingDrivingHours
        rw [hr1, hr2, ← heq, hv]
        dsimp only
        apply round2_mono
        have hdis : drivingInShift (init ++ [e]) s now1 ≤
            drivingInShift (init ++ [e]) s now2 :=
          drivingInShift_mono _ _ _ _ _ h12 (fun l _ => Iff.rfl) hstart
        exact max_le_max le_rfl (by linarith)
    · apply hboundary_le
      · unfold remainingDrivingHours
        rw [hr2, hb2]
      · unfold remainingDrivingHours
        rw [hr1, hb1]

/-- Witness for C9's amended statement: two closed driving events and an
open driving event, compared at now1 = 3 and now2 = 4. -/
theorem remaining_driving_monotone_amended_witness :
    (getHosStatus [⟨EventType.driving, 0, some 1, 1⟩,
        ⟨EventType.driving, 2, none, 0⟩] 4).remaining_driving_hours ≤
      (getHosStatus [⟨EventType.driving, 0, some 1, 1⟩,
        ⟨EventType.driving, 2, none, 0⟩] 3).remaining_driving_hours :=
  remaining_driving_monotone_amended [⟨EventType.driving, 0, some 1, 1⟩]
    ⟨EventType.driving, 2, none, 0⟩ 3 4 (by norm_num) rfl rfl
    (by intro l hl; fin_cases hl <;> norm_num)
    (by intro l hl; fin_cases hl <;> norm_num)
